import Mathlib

/-!
Verification of the certificate-generation core of the PremierKids warranty
certificate service (`src/services/certificates.js`, `src/services/invoice-parser.js`,
`src/services/pdf.js`).  JavaScript strings are modelled as Lean `String`
(lists of characters), JS regular expressions either by direct equivalent
character-list computations (for the fully anchored identifier patterns) or by
a small backtracking regex interpreter (for the free-form VAT classifier
patterns), exceptions by `Except String`, and the external collaborators
(SmartBill fetch, product catalog, PDF template, filesystem, database) by
explicit environment records.
-/

set_option maxRecDepth 4000
set_option linter.unusedVariables false

/-! ## Character classes and JS string primitives -/

/-- ASCII digit class, `[0-9]` / `\d`. -/
def isAsciiDigit (c : Char) : Bool := 48 ≤ c.toNat && c.toNat ≤ 57

/-- ASCII uppercase letter class, `[A-Z]`. -/
def isUpperAlpha (c : Char) : Bool := 65 ≤ c.toNat && c.toNat ≤ 90

/-- ASCII lowercase letter class, `[a-z]`. -/
def isLowerAlpha (c : Char) : Bool := 97 ≤ c.toNat && c.toNat ≤ 122

/-- Alphanumeric class `[A-Z0-9]` used by the separator pattern. -/
def isUpperAlnum (c : Char) : Bool := isUpperAlpha c || isAsciiDigit c

/-- JS whitespace class `\s` (the code points occurring in this code base). -/
def isWsJS (c : Char) : Bool :=
  c.toNat == 32 || c.toNat == 9 || c.toNat == 10 || c.toNat == 13 ||
  c.toNat == 11 || c.toNat == 12

/-- The separator class `[.\s-]` of identifier pattern 3. -/
def isSepCls (c : Char) : Bool := c.toNat == 46 || c.toNat == 45 || isWsJS c

/-- JS word class `\w` = `[A-Za-z0-9_]` (used by the `\b` boundary). -/
def isWordChar (c : Char) : Bool :=
  isUpperAlpha c || isLowerAlpha c || isAsciiDigit c || c.toNat == 95

/-- `String.prototype.toLowerCase` on one character, for the characters this
code base manipulates: ASCII letters plus the Romanian diacritics. -/
def jsLowerChar (c : Char) : Char :=
  if 65 ≤ c.toNat ∧ c.toNat ≤ 90 then Char.ofNat (c.toNat + 32)
  else if c.toNat = 258 then 'ă'
  else if c.toNat = 194 then 'â'
  else if c.toNat = 206 then 'î'
  else if c.toNat = 536 then 'ș'
  else if c.toNat = 538 then 'ț'
  else c

/-- `String.prototype.toUpperCase` on one character (same character set). -/
def jsUpperChar (c : Char) : Char :=
  if 97 ≤ c.toNat ∧ c.toNat ≤ 122 then Char.ofNat (c.toNat - 32)
  else if c.toNat = 259 then 'Ă'
  else if c.toNat = 226 then 'Â'
  else if c.toNat = 238 then 'Î'
  else if c.toNat = 537 then 'Ș'
  else if c.toNat = 539 then 'Ț'
  else c

/-- `toLowerCase` on a character list. -/
def jsLowerL (cs : List Char) : List Char := cs.map jsLowerChar

/-- `toUpperCase` on a character list. -/
def jsUpperL (cs : List Char) : List Char := cs.map jsUpperChar

/-- `toLowerCase` on a string. -/
def jsLowerStr (s : String) : String := String.mk (jsLowerL s.data)

/-- `String.prototype.trim` on a character list. -/
def jsTrimL (cs : List Char) : List Char :=
  ((cs.dropWhile isWsJS).reverse.dropWhile isWsJS).reverse

/-- Does `l` start with `pre`?  (JS `startsWith`, helper for `includes`.) -/
def leadsWith : List Char → List Char → Bool
  | _, [] => true
  | [], _ :: _ => false
  | a :: as, b :: bs => a == b && leadsWith as bs

/-- JS `String.prototype.includes`: does `l` contain `sub` as a contiguous
segment? -/
def listContains (sub : List Char) : List Char → Bool
  | [] => sub.isEmpty
  | l@(_ :: rest) => leadsWith l sub || listContains sub rest

/-- `includes` on strings. -/
def strContains (s sub : String) : Bool := listContains sub.data s.data

/-- JS falsy-or on strings: `a || b` where the empty string is falsy. -/
def jsOrStr (a b : String) : String := if a = ("") then b else a

/-- JS falsy-or where the left operand may be `null`/`undefined`. -/
def jsOrStrOpt (a : Option String) (b : String) : String :=
  match a with
  | some s => jsOrStr s b
  | none => b

/-- JS falsy-or on numbers: `a || b` where `0` is falsy; `none` models
`null`/`undefined`. -/
def jsOrInt (a : Option Int) (b : Int) : Int :=
  match a with
  | some v => if v = 0 then b else v
  | none => b

/-- JS falsy check `!x` for an optional string (absent or empty). -/
def jsFalsyStr (a : Option String) : Bool :=
  match a with
  | some s => s = ("")
  | none => true

/-- `parseInt(s, 10)`: value of the leading decimal-digit run, `none` for
`NaN` (no leading digits). -/
def jsParseInt (s : String) : Option Nat :=
  let ds := s.data.takeWhile isAsciiDigit
  if ds.isEmpty then none
  else some (ds.foldl (fun acc c => 10 * acc + (c.toNat - 48)) 0)

/-! ## Identifier Normalizer (`certificates.js` `_parseInvoiceIdentifier`)

The four JS patterns are fully anchored (`^...$`) and each quantified
sub-expression ranges over a character class disjoint from the class of the
following sub-expression, so greedy backtracking degenerates to maximal-munch
splitting; the translation below computes those forced splits directly.
  1. `^([A-Z]+)(\d{4})(\d{4,6})$`   series = letters+year
  2. `^([A-Z]{2,5})(\d+)$`          simple series
  3. `^([A-Z0-9]+)[.\s-]+(\d+)$`    separator form
  4. `^\d+$`                        pure digits, fallback series `PK`
-/

/-- Pattern matching of `_parseInvoiceIdentifier` on an already trimmed and
upper-cased character list.  Returns the `(series, number)` split. -/
def parseIdentChars (cs : List Char) : Option (List Char × List Char) :=
  -- pattern 1: `^([A-Z]+)(\d{4})(\d{4,6})$`
  let ls := cs.takeWhile isUpperAlpha
  let rest := cs.dropWhile isUpperAlpha
  if ls ≠ [] ∧ rest.all isAsciiDigit = true ∧ 8 ≤ rest.length ∧ rest.length ≤ 10 then
    some (ls ++ rest.take 4, rest.drop 4)
  -- pattern 2: `^([A-Z]{2,5})(\d+)$`
  else if 2 ≤ ls.length ∧ ls.length ≤ 5 ∧ rest ≠ [] ∧ rest.all isAsciiDigit = true then
    some (ls, rest)
  else
    -- pattern 3: `^([A-Z0-9]+)[.\s-]+(\d+)$`
    let al := cs.takeWhile isUpperAlnum
    let r1 := cs.dropWhile isUpperAlnum
    let sep := r1.takeWhile isSepCls
    let r2 := r1.dropWhile isSepCls
    if al ≠ [] ∧ sep ≠ [] ∧ r2 ≠ [] ∧ r2.all isAsciiDigit = true then
      some (al, r2)
    -- pattern 4: `^\d+$` with the implicit series `PK`
    else if cs ≠ [] ∧ cs.all isAsciiDigit = true then
      some (('P' :: 'K' :: []), cs)
    else
      none

/-- `CertificatesService._parseInvoiceIdentifier`: trim, upper-case, then try
the four patterns in order; `none` models the `{series: null, number: null}`
result. -/
def _parseInvoiceIdentifier (s : String) : Option (String × String) :=
  match parseIdentChars (jsUpperL (jsTrimL s.data)) with
  | some (a, b) => some (String.mk a, String.mk b)
  | none => none

/-! ## A small backtracking regex interpreter

Used for the free-form patterns of `_isVatPayer` in `invoice-parser.js`.
Every quantifier in those patterns ranges over a single character class, so
the interpreter only needs class quantifiers and is structurally recursive.
Result lists are in JS backtracking priority order; `reFirstMatch` scans
start positions left to right, so its first answer is exactly the match that
`String.prototype.match` returns.  At most one capturing group occurs per
pattern, tracked as a start/end position pair. -/

inductive RE where
  | emp : RE
  | ch (p : Char → Bool) : RE
  | seq (a b : RE) : RE
  | alt (a b : RE) : RE
  | opt (a : RE) : RE
  | starCls (p : Char → Bool) (greedy : Bool) : RE
  | plusCls (p : Char → Bool) (greedy : Bool) : RE
  | repCls (p : Char → Bool) (lo hi : Nat) : RE
  | bound : RE
  | eolM : RE
  | grp (a : RE) : RE

/-- Length of the maximal run of characters satisfying `p` from `pos`. -/
def maxRun (p : Char → Bool) (input : List Char) (pos : Nat) : Nat :=
  ((input.drop pos).takeWhile p).length

/-- Is there a `\b` word boundary at `pos`? -/
def atBoundary (input : List Char) (pos : Nat) : Bool :=
  let before := match input.get? (pos - 1) with
    | some c => pos ≠ 0 && isWordChar c
    | none => false
  let after := match input.get? pos with
    | some c => isWordChar c
    | none => false
  before != after

/-- Multiline `$`: end of input or before a line terminator. -/
def atEolM (input : List Char) (pos : Nat) : Bool :=
  match input.get? pos with
  | none => true
  | some c => c == '\n' || c == '\r'

/-- Run a regex at `pos`; produce the `(end-position, capture)` pairs of all
ways to match, in backtracking priority order. -/
def reRun : RE → List Char → Nat → List (Nat × Option (Nat × Nat))
  | RE.emp, _, pos => [(pos, none)]
  | RE.ch p, input, pos =>
      match input.get? pos with
      | some c => if p c then [(pos + 1, none)] else []
      | none => []
  | RE.seq a b, input, pos =>
      (reRun a input pos).flatMap fun pr =>
        (reRun b input pr.1).map fun qr => (qr.1, qr.2 <|> pr.2)
  | RE.alt a b, input, pos => reRun a input pos ++ reRun b input pos
  | RE.opt a, input, pos => reRun a input pos ++ [(pos, none)]
  | RE.starCls p greedy, input, pos =>
      let n := maxRun p input pos
      let ks := if greedy then (List.range (n + 1)).reverse else List.range (n + 1)
      ks.map fun k => (pos + k, none)
  | RE.plusCls p greedy, input, pos =>
      let n := maxRun p input pos
      let ks := if greedy then ((List.range n).map (· + 1)).reverse
                else (List.range n).map (· + 1)
      ks.map fun k => (pos + k, none)
  | RE.repCls p lo hi, input, pos =>
      let n := min (maxRun p input pos) hi
      if n < lo then []
      else ((List.range (n - lo + 1)).map (fun j => n - j)).map fun k => (pos + k, none)
  | RE.bound, input, pos => if atBoundary input pos then [(pos, none)] else []
  | RE.eolM, input, pos => if atEolM input pos then [(pos, none)] else []
  | RE.grp a, input, pos =>
      (reRun a input pos).map fun pr => (pr.1, some (pos, pr.1))

/-- Leftmost match: the first start position with a match, then the highest
priority alternative there — exactly `String.prototype.match` (no `g`). -/
def reFirstMatch (r : RE) (input : List Char) : Option (Nat × Option (Nat × Nat)) :=
  (List.range (input.length + 1)).findSome? fun s => (reRun r input s).head?

/-- The text of capture group 1 of the leftmost match, if any. -/
def reCapture (r : RE) (s : String) : Option String :=
  match reFirstMatch r s.data with
  | some (_, some (a, b)) => some (String.mk ((s.data.drop a).take (b - a)))
  | _ => none

/-- `RegExp.prototype.test`. -/
def reTest (r : RE) (s : String) : Bool := (reFirstMatch r s.data).isSome

/-- Case-insensitive single character (the `/i` flag). -/
def ci (c : Char) : RE := RE.ch fun x => jsLowerChar x == jsLowerChar c

/-- Case-sensitive single character. -/
def cs1 (c : Char) : RE := RE.ch fun x => x == c

/-- Case-insensitive literal string. -/
def lits (s : String) : RE := s.data.foldr (fun c acc => RE.seq (ci c) acc) RE.emp

/-- Case-insensitive character class given by its (lower-case) members. -/
def ciCls (l : List Char) : Char → Bool := fun x => l.contains (jsLowerChar x)

/-- The class `[:\s]`. -/
def isColonWs (c : Char) : Bool := c == ':' || isWsJS c

/-- Sequence a list of regexes. -/
def seqs (l : List RE) : RE := l.foldr RE.seq RE.emp

/-! ## Field Extractor: VAT-payer classification (`invoice-parser.js` `_isVatPayer`) -/

/-- `/(?:Client|Cumparator|Cumpărător|Beneficiar)[:\s]+([\s\S]*?)(?:Produs|Denumire produs|Nr\.\s*crt|Total|FACTURA)/i` -/
def clientSectionRE : RE :=
  seqs [RE.alt (lits ("Client"))
          (RE.alt (lits ("Cumparator")) (RE.alt (lits ("Cumpărător")) (lits ("Beneficiar")))),
        RE.plusCls isColonWs true,
        RE.grp (RE.starCls (fun _ => true) false),
        RE.alt (lits ("Produs"))
          (RE.alt (lits ("Denumire produs"))
            (RE.alt (seqs [lits ("Nr"), cs1 '.', RE.starCls isWsJS true, lits ("crt")])
              (RE.alt (lits ("Total")) (lits ("FACTURA")))))]

/-- `/pl[aă]titor\s+(?:de\s+)?TVA[:\s]*([DNdn][aAuU])/i` -/
def platitorRE1 : RE :=
  seqs [ci 'p', ci 'l', RE.ch (ciCls ['a', 'ă']), lits ("titor"),
        RE.plusCls isWsJS true,
        RE.opt (seqs [lits ("de"), RE.plusCls isWsJS true]),
        lits ("TVA"), RE.starCls isColonWs true,
        RE.grp (RE.seq (RE.ch (ciCls ['d', 'n'])) (RE.ch (ciCls ['a', 'u'])))]

/-- `/pl[aă]titor\s+TVA[:\s\n]*([DNdn][aAuU])/i` (`\n ∈ \s`, so the class is
`isColonWs` again). -/
def platitorRE2 : RE :=
  seqs [ci 'p', ci 'l', RE.ch (ciCls ['a', 'ă']), lits ("titor"),
        RE.plusCls isWsJS true,
        lits ("TVA"), RE.starCls isColonWs true,
        RE.grp (RE.seq (RE.ch (ciCls ['d', 'n'])) (RE.ch (ciCls ['a', 'u'])))]

/-- `/TVA[:\s]*([DNdn][aAuU])\s*$/im` -/
def platitorRE3 : RE :=
  seqs [lits ("TVA"), RE.starCls isColonWs true,
        RE.grp (RE.seq (RE.ch (ciCls ['d', 'n'])) (RE.ch (ciCls ['a', 'u']))),
        RE.starCls isWsJS true, RE.eolM]

/-- `/Platitor\s*TVA\s*[:\s]*\n*\s*([DNdn][aAuU])/im` -/
def platitorRE4 : RE :=
  seqs [lits ("Platitor"), RE.starCls isWsJS true, lits ("TVA"),
        RE.starCls isWsJS true, RE.starCls isColonWs true,
        RE.starCls (fun c => c == '\n') true, RE.starCls isWsJS true,
        RE.grp (RE.seq (RE.ch (ciCls ['d', 'n'])) (RE.ch (ciCls ['a', 'u'])))]

/-- `/(?:CNP|C\.N\.P\.?)[:\s]*(\d{13})/i` -/
def cnpLabelRE : RE :=
  seqs [RE.alt (lits ("CNP"))
          (seqs [ci 'c', cs1 '.', ci 'n', cs1 '.', ci 'p', RE.opt (cs1 '.')]),
        RE.starCls isColonWs true, RE.grp (RE.repCls isAsciiDigit 13 13)]

/-- `/\b([1256]\d{12})\b/` -/
def cnpDirectRE : RE :=
  seqs [RE.bound,
        RE.grp (RE.seq (RE.ch fun c => c == '1' || c == '2' || c == '5' || c == '6')
                        (RE.repCls isAsciiDigit 12 12)),
        RE.bound]

/-- `/RO\s*(\d{6,10})/i` -/
def clientRoRE : RE :=
  seqs [ci 'R', ci 'O', RE.starCls isWsJS true, RE.grp (RE.repCls isAsciiDigit 6 10)]

/-- The isolated client sub-section: capture group 1 of `clientSectionRE` if it
matches, otherwise the whole text (source lines 182-189). -/
def clientSectionF (text : String) : String :=
  match reFirstMatch clientSectionRE text.data with
  | some (_, some (a, b)) => String.mk ((text.data.drop a).take (b - a))
  | _ => text

/-- One iteration of the `platitorPatterns` loop: first match of one pattern;
`nu` ⇒ PF (`false`), `da` ⇒ PJ (`true`), any other captured value falls
through to the next pattern (`none`). -/
def patDecision (r : RE) (s : String) : Option Bool :=
  match reCapture r s with
  | some v =>
      if jsLowerStr v = ("nu") then some false
      else if jsLowerStr v = ("da") then some true
      else none
  | none => none

/-- The `platitorPatterns` loop of `_isVatPayer` over one text. -/
def platitorDecision (s : String) : Option Bool :=
  (patDecision platitorRE1 s).orElse fun _ =>
  (patDecision platitorRE2 s).orElse fun _ =>
  (patDecision platitorRE3 s).orElse fun _ =>
  patDecision platitorRE4 s

/-- `InvoiceParserService._isVatPayer` (source lines 179-261).  The `cui`
argument is accepted but never read, exactly as in the source.  Precedence:
explicit marker in the client section, explicit marker in the whole text,
labelled CNP, bare CNP, client-section `RO` tax id other than the seller's
own `10651758`, default PF. -/
def _isVatPayer (cui : Option String) (text : String) : Bool :=
  let sec := clientSectionF text
  match platitorDecision sec with
  | some b => b
  | none =>
    match platitorDecision text with
    | some b => b
    | none =>
      if reTest cnpLabelRE sec then false
      else if reTest cnpDirectRE sec then false
      else
        match reCapture clientRoRE sec with
        | some n => if n ≠ ("10651758") then true else false
        | none => false

/-! ## Product Matcher (`invoice-parser.js` `matchProductsWithNomenclator`) -/

/-- A product line item extracted from invoice text (`{code, name, quantity}`). -/
structure ProductLineItem where
  code : String
  name : String
  quantity : Nat
  deriving DecidableEq

/-- A row of the local product nomenclator (the `products` table as consumed
here).  `none` models SQL `NULL` / JS `undefined`. -/
structure LocalProduct where
  smartbill_code : String
  smartbill_name : String
  display_name : Option String
  warranty_pf : Option Int
  warranty_pj : Option Int
  voltage_min : Option String
  is_active : Int
  is_new : Int
  deriving DecidableEq

/-- The `productsService` collaborator: `getProductByCode` and
`getAllProducts(true)` (the full list, inactive rows included). -/
structure Catalog where
  getProductByCode : String → Option LocalProduct
  getAllProducts : List LocalProduct

/-- Output shape of the matcher.  Matched entries carry the nomenclator data
and no `reason`; unmatched entries echo the line item and carry a `reason`. -/
structure MatchedProduct where
  code : String
  name : String
  warranty_pf : Option Int := none
  warranty_pj : Option Int := none
  voltage_min : Option String := none
  quantity : Nat
  matched : Bool
  reason : Option String := none
  deriving DecidableEq

/-- The tiered nomenclator lookup for one line item (source lines 435-464):
exact code, exact lower-cased trimmed name, active row whose name contains the
invoice name, active row whose name is contained in the invoice name; first
hit wins. -/
def lookupProduct (c : Catalog) (item : ProductLineItem) : Option LocalProduct :=
  match c.getProductByCode item.code with
  | some p => some p
  | none =>
    let invoiceName := String.mk (jsTrimL (jsLowerL item.name.data))
    ((c.getAllProducts.find? fun p =>
        String.mk (jsTrimL (jsLowerL p.smartbill_name.data)) == invoiceName).orElse fun _ =>
     ((c.getAllProducts.find? fun p =>
        p.is_active == 1 && strContains (jsLowerStr p.smartbill_name) invoiceName).orElse fun _ =>
      c.getAllProducts.find? fun p =>
        p.is_active == 1 &&
          strContains invoiceName (String.mk (jsTrimL (jsLowerL p.smartbill_name.data)))))

/-- Matcher body for one line item (source lines 469-488): a lookup hit counts
as matched only when `is_active === 1 && is_new === 0`; otherwise the item is
reported unmatched with a reason distinguishing found-but-not-configured from
absent. -/
def matchInvoiceProduct (c : Catalog) (item : ProductLineItem) : MatchedProduct :=
  match lookupProduct c item with
  | some p =>
      if p.is_active = 1 ∧ p.is_new = 0 then
        { code := p.smartbill_code,
          name := jsOrStrOpt p.display_name p.smartbill_name,
          warranty_pf := p.warranty_pf,
          warranty_pj := p.warranty_pj,
          voltage_min := p.voltage_min,
          quantity := if item.quantity = 0 then 1 else item.quantity,
          matched := true,
          reason := none }
      else
        { code := item.code, name := item.name,
          quantity := if item.quantity = 0 then 1 else item.quantity,
          matched := false,
          reason := some ("Produsul nu este configurat") }
  | none =>
      { code := item.code, name := item.name,
        quantity := if item.quantity = 0 then 1 else item.quantity,
        matched := false,
        reason := some ("Produsul nu există în nomenclator") }

/-- `InvoiceParserService.matchProductsWithNomenclator`: the source loop pushes
one result per input item in order, i.e. a map. -/
def matchProductsWithNomenclator (invoiceProducts : List ProductLineItem)
    (c : Catalog) : List MatchedProduct :=
  invoiceProducts.map (matchInvoiceProduct c)

/-! ## Certificate Composer (`pdf.js` `generateCertificate`, pure field logic) -/

/-- A product as placed on the certificate (`productsWithWarranty` shape). -/
structure CertProduct where
  code : String
  name : String
  warrantyMonths : Option Int
  quantity : Nat
  deriving DecidableEq

/-- `CertificateData` as assembled by `certificates.js`. -/
structure CertificateData where
  clientName : String
  invoiceNumber : String
  invoiceDate : String
  products : List CertProduct
  minVoltage : String
  isVatPayer : Bool
  emagOrderNumber : Option String
  deriving DecidableEq

/-- The transliteration of `normalizeText` (source lines 107-115): ten chained
global single-character replacements; since no replacement output is itself
replaced later, the chain is one character map. -/
def deDiacritic (c : Char) : Char :=
  if c.toNat = 259 then 'a' else if c.toNat = 258 then 'A'
  else if c.toNat = 226 then 'a' else if c.toNat = 194 then 'A'
  else if c.toNat = 238 then 'i' else if c.toNat = 206 then 'I'
  else if c.toNat = 537 then 's' else if c.toNat = 536 then 'S'
  else if c.toNat = 539 then 't' else if c.toNat = 538 then 'T'
  else c

/-- `normalizeText` of `pdf.js` (the `!text` guard only matters for the empty
string, on which the map is the identity anyway). -/
def normalizeText (s : String) : String := String.mk (s.data.map deDiacritic)

/-- Is `c` one of the ten Romanian diacritics handled by `normalizeText`? -/
def isRoDiacritic (c : Char) : Bool :=
  c.toNat == 259 || c.toNat == 258 || c.toNat == 226 || c.toNat == 194 ||
  c.toNat == 238 || c.toNat == 206 || c.toNat == 537 || c.toNat == 536 ||
  c.toNat == 539 || c.toNat == 538

/-- A string free of those diacritics. -/
def noDiacritics (s : String) : Bool := s.data.all fun c => !(isRoDiacritic c)

/-- `\s+` → single space (JS `replace(/\s+/g, ' ')`); `prevWs` records whether
the previous character belonged to a whitespace run already emitted. -/
def collapseWsAux : Bool → List Char → List Char
  | _, [] => []
  | prevWs, c :: rest =>
      if isWsJS c then
        if prevWs then collapseWsAux true rest
        else ' ' :: collapseWsAux true rest
      else c :: collapseWsAux false rest

/-- `formatProductName` (source lines 119-124): trim, then collapse whitespace
runs to single spaces. -/
def formatProductName (s : String) : String :=
  String.mk (collapseWsAux false (jsTrimL s.data))

/-- The name field of product slot `i` (0-based; source fills slots 1..3 with
three copies of the same logic).  A slot is populated only when a product is
present at that position with a JS-truthy (non-empty) name, and every written
value passes through `normalizeText`. -/
def slotNameField (ps : List CertProduct) (i : Nat) : String :=
  match ps.get? i with
  | some p =>
      if p.name = ("") then normalizeText ("")
      else normalizeText (Nat.repr (i + 1) ++ (". ") ++ formatProductName p.name)
  | none => normalizeText ("")

/-- The warranty field of slot `i`: `garantie (luni): <n>` with the JS falsy
fallback `warrantyMonths || 24`. -/
def slotWarrantyField (ps : List CertProduct) (i : Nat) : String :=
  match ps.get? i with
  | some p =>
      if p.name = ("") then normalizeText ("")
      else normalizeText (("garantie (luni): ") ++ (jsOrInt p.warrantyMonths 24).repr)
  | none => normalizeText ("")

/-- The text fields of the certificate template. -/
structure CertFields where
  product1 : String
  product2 : String
  product3 : String
  warranty1 : String
  warranty2 : String
  warranty3 : String
  client_name : String
  invoice_number : String
  invoice_date : String
  voltage_min : String
  deriving DecidableEq

/-- The pure field-filling of `generateCertificate` (source lines 144-224),
assuming the template exposes all ten fields. -/
def fillCertificateFields (data : CertificateData) : CertFields :=
  { product1 := slotNameField data.products 0,
    product2 := slotNameField data.products 1,
    product3 := slotNameField data.products 2,
    warranty1 := slotWarrantyField data.products 0,
    warranty2 := slotWarrantyField data.products 1,
    warranty3 := slotWarrantyField data.products 2,
    client_name := normalizeText (jsOrStr data.clientName ("")),
    invoice_number := normalizeText (jsOrStr data.invoiceNumber ("")),
    invoice_date := normalizeText (jsOrStr data.invoiceDate ("")),
    voltage_min := normalizeText (jsOrStr data.minVoltage ("10.8")) }

/-- Slot-name selector used to state properties uniformly over `i = 0, 1, 2`. -/
def certNameField (f : CertFields) (i : Nat) : String :=
  if i = 0 then f.product1 else if i = 1 then f.product2 else f.product3

/-- Slot-warranty selector. -/
def certWarrantyField (f : CertFields) (i : Nat) : String :=
  if i = 0 then f.warranty1 else if i = 1 then f.warranty2 else f.warranty3

/-- `generateCertificate` as observed by callers: `loadTemplate` throws when
the template file is missing, otherwise the fields are filled and a document
is produced. -/
def generateCertificatePure (templateOk : Bool) (data : CertificateData) :
    Except String CertFields :=
  if templateOk then Except.ok (fillCertificateFields data)
  else Except.error ("Template-ul PDF nu a fost găsit")

/-! ## Single-invoice pipeline (`certificates.js` `processInvoiceFromPdf`)

Exceptions are modelled by `Except String`; `Except.error` at the outer level
means "an exception escapes to the caller".  The per-attempt external world is
an `Env`: what `smartBillService.getInvoicePdf` does, what the PDF text parses
to, the catalog, and whether template / filesystem / database cooperate. -/

/-- `ExtractedInvoiceData` as produced by `parseInvoicePdf` (`totalValue` — a
float — and the debugging `rawText` are never consumed by the modelled paths
and are omitted). -/
structure InvoiceData where
  invoiceNumber : Option String
  invoiceDate : Option String
  clientName : Option String
  clientCUI : Option String
  isVatPayer : Bool
  products : List ProductLineItem
  emagOrderNumber : Option String
  deriving DecidableEq

/-- What `pdf-parse` does with the downloaded buffer: throw, or yield a text
whose field extraction gives `data` (extraction itself never throws). -/
inductive ParseOutcome where
  | fails (msg : String)
  | extracted (data : InvoiceData)
  deriving DecidableEq

/-- What `smartBillService.getInvoicePdf(series, number)` does: reject the
promise, resolve with a null/empty buffer, or resolve with a real document. -/
inductive FetchStep where
  | throws (msg : String)
  | empty
  | doc (outcome : ParseOutcome)
  deriving DecidableEq

/-- Result shape of `parseInvoicePdf`. -/
structure ParseResult where
  success : Bool
  data : Option InvoiceData
  error : Option String

/-- `InvoiceParserService.parseInvoicePdf` (source lines 14-45): its own
try/catch converts a `pdf-parse` throw into `success:false`. -/
def parseInvoicePdfM : ParseOutcome → ParseResult
  | ParseOutcome.fails msg =>
      { success := false, data := none,
        error := some (("Eroare la parsarea PDF-ului: ") ++ msg) }
  | ParseOutcome.extracted d =>
      { success := true, data := some d, error := none }

/-- The per-attempt external environment of `processInvoiceFromPdf`. -/
structure Env where
  fetch : FetchStep
  catalog : Catalog
  templateOk : Bool
  saveOk : Except String Unit
  dbOk : Except String Unit
  todayStr : String

/-- Structured result object of `processInvoiceFromPdf` (fields absent on a
given JS return path are `none` / `false`). -/
structure InvoiceResult where
  success : Bool := false
  generated : Bool := false
  error : Option String := none
  message : Option String := none
  invoiceNumber : Option String := none
  certData : Option CertificateData := none
  certFields : Option CertFields := none
  pdfFilename : Option String := none

/-- `replace(/[^0-9]/g, '')`. -/
def digitsOnly (s : String) : String := String.mk (s.data.filter isAsciiDigit)

/-- `slice(-5)`: the last five characters (the whole string when shorter). -/
def sliceLast5 (s : String) : String :=
  String.mk (s.data.drop (s.data.length - 5))

/-- The try-block of `processInvoiceFromPdf` (source lines 359-494); an
`Except.error` is a `throw` reaching the final catch. -/
def processInvoiceBody (series number : String) (env : Env) :
    Except String InvoiceResult :=
  let invoiceNumber := series ++ number
  match env.fetch with
  | FetchStep.throws msg => Except.error msg
  | FetchStep.empty =>
      Except.ok { success := false,
                  error := some ("Nu s-a putut descărca PDF-ul facturii de la SmartBill") }
  | FetchStep.doc outcome =>
    let parseResult := parseInvoicePdfM outcome
    match parseResult.data with
    | none => Except.ok { success := false, error := parseResult.error }
    | some invoiceData =>
      -- cross-check (source lines 385-411)
      if jsFalsyStr invoiceData.invoiceNumber then
        Except.error (("SmartBill PDF Error: 404 - Factura ") ++ invoiceNumber ++
          (" nu a fost găsită (PDF fără număr factură)"))
      else
        let parsedInvoiceNumber := (invoiceData.invoiceNumber).getD ("")
        let requestedSuffix := sliceLast5 (digitsOnly invoiceNumber)
        let parsedSuffix := sliceLast5 (digitsOnly parsedInvoiceNumber)
        if requestedSuffix ≠ parsedSuffix then
          Except.error (("SmartBill PDF Error: 404 - Factura ") ++ invoiceNumber ++
            (" nu a fost găsită (PDF returnează altă factură: ") ++
            parsedInvoiceNumber ++ (")"))
        else
          let matchedProducts := matchProductsWithNomenclator invoiceData.products env.catalog
          let activeProducts := matchedProducts.filter (fun p => p.matched)
          if activeProducts.isEmpty then
            Except.ok { success := true, generated := false,
                        message := some ("Factura nu conține produse Premier configurate în nomenclator"),
                        invoiceNumber := some invoiceNumber }
          else
            let isVatPayer := invoiceData.isVatPayer
            let productsWithWarranty : List CertProduct := activeProducts.map fun p =>
              { code := p.code, name := p.name,
                warrantyMonths := if isVatPayer then p.warranty_pj else p.warranty_pf,
                quantity := p.quantity }
            let minVoltage := match activeProducts.head? with
              | some p => jsOrStrOpt p.voltage_min ("")
              | none => ("")
            let emagOrderNumber := invoiceData.emagOrderNumber
            let certificateData : CertificateData :=
              { clientName := jsOrStrOpt invoiceData.clientName ("Client"),
                invoiceNumber := invoiceNumber,
                invoiceDate := jsOrStrOpt invoiceData.invoiceDate env.todayStr,
                products := productsWithWarranty.take 3,
                minVoltage := minVoltage,
                isVatPayer := isVatPayer,
                emagOrderNumber := emagOrderNumber }
            match generateCertificatePure env.templateOk certificateData with
            | Except.error e => Except.error e
            | Except.ok fields =>
              match env.saveOk with
              | Except.error e => Except.error e
              | Except.ok _ =>
                match env.dbOk with
                | Except.error e => Except.error e
                | Except.ok _ =>
                  Except.ok { success := true, generated := true,
                              invoiceNumber := some invoiceNumber,
                              certData := some certificateData,
                              certFields := some fields,
                              pdfFilename := some (("Certificat_Garantie_") ++
                                invoiceNumber ++ (".pdf")) }

/-- `CertificatesService.processInvoiceFromPdf`: the whole body sits in one
try/catch whose handler returns `{success: false, error: message}` — so the
function resolves with a structured result for every input.  (The result type
is still `Except` so that "an exception escapes to the caller" is statable.) -/
def processInvoiceFromPdf (series number : String) (env : Env) :
    Except String InvoiceResult :=
  match processInvoiceBody series number env with
  | Except.ok r => Except.ok r
  | Except.error msg => Except.ok { success := false, error := some msg }

/-! ## Manual certificate generation (`certificates.js` `generateManualCertificate`) -/

/-- Input of `generateManualCertificate`. -/
structure ManualData where
  invoiceNumber : String
  invoiceDate : String
  clientName : String
  isVatPayer : Bool
  products : List CertProduct
  minVoltage : Option String

/-- External world of a manual generation (template, filesystem, database). -/
structure ManualEnv where
  templateOk : Bool
  saveOk : Except String Unit
  dbOk : Except String Unit

/-- Result object of `generateManualCertificate`. -/
structure ManualResult where
  success : Bool := false
  generated : Bool := false
  error : Option String := none
  certData : Option CertificateData := none
  certFields : Option CertFields := none
  productsCount : Nat := 0
  pdfFilename : Option String := none

/-- `CertificatesService.generateManualCertificate` (source lines 508-557):
no products ⇒ validation failure; otherwise compose `certificateData` with
`products.slice(0, 3)` and generate; this method has no try/catch, so
template/filesystem/database throws propagate (`Except.error`). -/
def generateManualCertificate (data : ManualData) (env : ManualEnv) :
    Except String ManualResult :=
  if data.products.isEmpty then
    Except.ok { success := false, error := some ("Selectați cel puțin un produs") }
  else
    let certificateData : CertificateData :=
      { clientName := data.clientName,
        invoiceNumber := data.invoiceNumber,
        invoiceDate := data.invoiceDate,
        products := data.products.take 3,
        minVoltage := jsOrStrOpt data.minVoltage (""),
        isVatPayer := data.isVatPayer,
        emagOrderNumber := none }
    match generateCertificatePure env.templateOk certificateData with
    | Except.error e => Except.error e
    | Except.ok fields =>
      match env.saveOk with
      | Except.error e => Except.error e
      | Except.ok _ =>
        match env.dbOk with
        | Except.error e => Except.error e
        | Except.ok _ =>
          Except.ok { success := true, generated := true,
                      certData := some certificateData,
                      certFields := some fields,
                      productsCount := data.products.length,
                      pdfFilename := some (("Certificat_Garantie_") ++
                        data.invoiceNumber ++ (".pdf")) }

/-! ## Sequential Discovery Driver (`certificates.js` `processUnprocessedInvoices`) -/

/-- The driver's not-found classification of a caught error message
(source lines 274-281). -/
def isNotFoundError (msg : String) : Bool :=
  let m := jsLowerStr msg
  strContains m ("404") || strContains m ("not found") ||
  strContains m ("parse error") || strContains m ("invalid header") ||
  strContains m ("nepotrivire") || strContains m ("nu a fost găsită")

/-- External world of one driver run: the stored checkpoint, `maxInvoices`,
and the per-attempt environment (attempt `i` probes number `start + i`). -/
structure DriverEnv where
  lastProcessed : String
  maxInvoices : Nat
  attempt : Nat → Env

/-- Mutable state of the driver loop. -/
structure DriverState where
  total : Nat := 0
  processed : Nat := 0
  generated : Nat := 0
  skipped : Nat := 0
  notFound : Nat := 0
  errors : List (String × String) := []
  certificates : List String := []
  consecutiveNotFound : Nat := 0
  lastExisting : String := ("")

/-- Summary returned by a driver run.  `checkpointWrite` records the
`setLastProcessedInvoice` database write (`none` = not written). -/
structure DriverResult where
  success : Bool := false
  error : Option String := none
  total : Nat := 0
  processed : Nat := 0
  generated : Nat := 0
  skipped : Nat := 0
  notFound : Nat := 0
  errors : List (String × String) := []
  certificates : List String := []
  lastProcessedInvoice : String := ("")
  checkpointWrite : Option String := none

/-- The `for (let i = 1; i <= maxInvoices; i++)` loop (source lines 238-305).
Each iteration issues exactly one fetch (the first await of
`processInvoiceFromPdf`); `fuel` counts the remaining iterations.  A returned
result takes the try-path; a propagated exception would take the catch-path
with the not-found classification and the consecutive-not-found cutoff of 2. -/
def driverLoop (series : String) (startNumber : Nat) (attempt : Nat → Env) :
    Nat → Nat → DriverState → DriverState
  | _, 0, st => st
  | i, fuel + 1, st =>
    let currentNumber := Nat.repr (startNumber + i)
    let invoiceIdentifier := series ++ currentNumber
    match processInvoiceFromPdf series currentNumber (attempt i) with
    | Except.ok result =>
        let st1 : DriverState :=
          { st with total := st.total + 1, processed := st.processed + 1,
                    consecutiveNotFound := 0, lastExisting := invoiceIdentifier }
        let st2 : DriverState :=
          if result.generated then
            { st1 with generated := st1.generated + 1,
                       certificates := st1.certificates ++ [invoiceIdentifier] }
          else
            { st1 with skipped := st1.skipped + 1 }
        driverLoop series startNumber attempt (i + 1) fuel st2
    | Except.error emsg =>
        let st1 : DriverState := { st with total := st.total + 1 }
        if isNotFoundError emsg then
          let st2 : DriverState :=
            { st1 with notFound := st1.notFound + 1,
                       consecutiveNotFound := st1.consecutiveNotFound + 1 }
          if 2 ≤ st2.consecutiveNotFound then st2
          else driverLoop series startNumber attempt (i + 1) fuel st2
        else
          let st2 : DriverState :=
            { st1 with consecutiveNotFound := 0,
                       errors := st1.errors ++ [(invoiceIdentifier, emsg)] }
          driverLoop series startNumber attempt (i + 1) fuel st2

/-- `CertificatesService.processUnprocessedInvoices` (source lines 192-333):
validate the checkpoint, parse it, loop, then persist `lastExisting` when it
moved. -/
def processUnprocessedInvoices (denv : DriverEnv) : DriverResult :=
  if denv.lastProcessed = ("") then
    { success := false,
      error := some ("Trebuie să setați ultima factură procesată înainte de procesarea automată. Introduceți numărul ultimei facturi procesate (ex: PK202124575).") }
  else
    match _parseInvoiceIdentifier denv.lastProcessed with
    | none =>
        { success := false,
          error := some (("Format invalid pentru ultima factură procesată: ") ++
            denv.lastProcessed ++ (". Folosiți formatul: PK202124575")) }
    | some (series, number) =>
      match jsParseInt number with
      | none =>
          { success := false,
            error := some (("Numărul facturii trebuie să fie numeric: ") ++ number) }
      | some startNumber =>
        let final := driverLoop series startNumber denv.attempt 1 denv.maxInvoices
          { lastExisting := denv.lastProcessed }
        { success := true,
          total := final.total, processed := final.processed,
          generated := final.generated, skipped := final.skipped,
          notFound := final.notFound, errors := final.errors,
          certificates := final.certificates,
          lastProcessedInvoice := final.lastExisting,
          checkpointWrite :=
            if final.lastExisting ≠ denv.lastProcessed then some final.lastExisting
            else none }

/-! ## Concrete fixtures for the closed evaluations and witnesses -/

/-- A catalog with no rows at all. -/
def emptyCatalog : Catalog :=
  { getProductByCode := fun _ => none, getAllProducts := [] }

/-- Attempt environment of an invoice that does not exist: the fetch rejects
with SmartBill's 404 message. -/
def notFoundEnv : Env :=
  { fetch := FetchStep.throws ("SmartBill PDF Error: 404 - Factura nu a fost găsită"),
    catalog := emptyCatalog, templateOk := true,
    saveOk := Except.ok (), dbOk := Except.ok (), todayStr := ("01.01.2025") }

/-- Attempt environment of an invoice that exists: the PDF parses, its number
matches the probed number `24575 + i`, and it lists no products (so the
attempt counts as existing-but-skipped and touches no other collaborator). -/
def foundEnv (i : Nat) : Env :=
  { fetch := FetchStep.doc (ParseOutcome.extracted
      { invoiceNumber := some (Nat.repr (24575 + i)),
        invoiceDate := none, clientName := none, clientCUI := none,
        isVatPayer := false, products := [], emagOrderNumber := none }),
    catalog := emptyCatalog, templateOk := true,
    saveOk := Except.ok (), dbOk := Except.ok (), todayStr := ("01.01.2025") }

/-- Driver run of one attempt whose outcome is not-found. -/
def denvC1 : DriverEnv :=
  { lastProcessed := ("PK202124575"), maxInvoices := 1, attempt := fun _ => notFoundEnv }

/-- Driver run with outcomes `[found, notFound, notFound, found]`. -/
def denvC2 : DriverEnv :=
  { lastProcessed := ("PK202124575"), maxInvoices := 4,
    attempt := fun i => if i == 2 || i == 3 then notFoundEnv else foundEnv i }

/-- The products placed on a certificate by `processInvoiceFromPdf`, empty
when no certificate data was composed. -/
def certProductsOf (x : Except String InvoiceResult) : List CertProduct :=
  match x with
  | Except.ok r =>
      match r.certData with
      | some cd => cd.products
      | none => []
  | Except.error _ => []

/-- Shorthand for building concrete certificate products. -/
def mkCp (nm : String) (w : Option Int) : CertProduct :=
  { code := nm, name := nm, warrantyMonths := w, quantity := 1 }

/-- A manual-generation request with five selected products. -/
def md5 : ManualData :=
  { invoiceNumber := ("PK202124601"), invoiceDate := ("01.01.2025"),
    clientName := ("Ion Țepeș"), isVatPayer := false,
    products := [mkCp ("P1") (some 24), mkCp ("P2") (some 36), mkCp ("P3") none,
                 mkCp ("P4") (some 12), mkCp ("P5") (some 24)],
    minVoltage := some ("10.8") }

/-- A manual-generation environment in which every collaborator cooperates. -/
def manualEnvOk : ManualEnv :=
  { templateOk := true, saveOk := Except.ok (), dbOk := Except.ok () }

/-- Certificate data with two products (slot 3 empty), diacritics included. -/
def c9data : CertificateData :=
  { clientName := ("Ion Țepeș"), invoiceNumber := ("PK202124601"),
    invoiceDate := ("01.01.2025"),
    products := [mkCp ("Masinuta electrica Premier ățâî") (some 24),
                 mkCp ("ATV electric Premier") none],
    minVoltage := (""), isVatPayer := false, emagOrderNumber := none }

/-! ## Helper lemmas -/

theorem deDiacritic_not_diacritic (c : Char) :
    isRoDiacritic (deDiacritic c) = false := by
  unfold deDiacritic
  repeat' split
  all_goals first
    | decide
    | (unfold isRoDiacritic
       simp only [Bool.or_eq_false_iff, beq_eq_false_iff_ne]
       omega)

theorem noDiacritics_normalizeText (s : String) :
    noDiacritics (normalizeText s) = true := by
  unfold noDiacritics normalizeText
  simp only [List.all_eq_true, List.mem_map]
  rintro c ⟨a, _, rfl⟩
  simp [deDiacritic_not_diacritic]

theorem map_eq_self_of {f : Char → Char} :
    ∀ l : List Char, (∀ c ∈ l, f c = c) → l.map f = l := by
  intro l h
  induction l with
  | nil => rfl
  | cons a as ih =>
      simp only [List.map_cons, h a (List.mem_cons_self a as)]
      rw [ih fun c hc => h c (List.mem_cons_of_mem a hc)]

theorem dropWhile_eq_self_of {p : Char → Bool} :
    ∀ l : List Char, (∀ c ∈ l, p c = false) → l.dropWhile p = l := by
  intro l h
  cases l with
  | nil => rfl
  | cons a as => simp [List.dropWhile_cons, h a (List.mem_cons_self a as)]

theorem jsTrimL_eq_self (cs : List Char) (h : ∀ c ∈ cs, isWsJS c = false) :
    jsTrimL cs = cs := by
  unfold jsTrimL
  rw [dropWhile_eq_self_of cs h,
      dropWhile_eq_self_of cs.reverse fun c hc => h c (List.mem_reverse.mp hc),
      List.reverse_reverse]

theorem jsUpperChar_eq_self (c : Char)
    (h : isUpperAlpha c = true ∨ isAsciiDigit c = true) : jsUpperChar c = c := by
  unfold isUpperAlpha isAsciiDigit at h
  simp only [Bool.and_eq_true, decide_eq_true_eq] at h
  unfold jsUpperChar
  rw [if_neg (by omega), if_neg (by omega), if_neg (by omega), if_neg (by omega),
      if_neg (by omega), if_neg (by omega)]

theorem isWsJS_alnum (c : Char)
    (h : isUpperAlpha c = true ∨ isAsciiDigit c = true) : isWsJS c = false := by
  unfold isUpperAlpha isAsciiDigit at h
  simp only [Bool.and_eq_true, decide_eq_true_eq] at h
  unfold isWsJS
  simp only [Bool.or_eq_false_iff, beq_eq_false_iff_ne]
  omega

theorem isUpperAlpha_of_digit (c : Char) (h : isAsciiDigit c = true) :
    isUpperAlpha c = false := by
  unfold isAsciiDigit at h
  simp only [Bool.and_eq_true, decide_eq_true_eq] at h
  unfold isUpperAlpha
  simp only [Bool.and_eq_false_iff, decide_eq_false_iff_not]
  omega

theorem takeWhile_app_of {p : Char → Bool} (L : List Char) (r : Char) (rs : List Char)
    (hL : ∀ c ∈ L, p c = true) (hr : p r = false) :
    (L ++ r :: rs).takeWhile p = L := by
  induction L with
  | nil => simp [List.takeWhile_cons, hr]
  | cons a as ih =>
      simp only [List.cons_append, List.takeWhile_cons,
        hL a (List.mem_cons_self a as), if_true]
      rw [ih fun c hc => hL c (List.mem_cons_of_mem a hc)]

theorem dropWhile_app_of {p : Char → Bool} (L : List Char) (r : Char) (rs : List Char)
    (hL : ∀ c ∈ L, p c = true) (hr : p r = false) :
    (L ++ r :: rs).dropWhile p = r :: rs := by
  induction L with
  | nil => simp [List.dropWhile_cons, hr]
  | cons a as ih =>
      simp only [List.cons_append, List.dropWhile_cons,
        hL a (List.mem_cons_self a as), if_true]
      exact ih fun c hc => hL c (List.mem_cons_of_mem a hc)

theorem leadsWith_nil (l : List Char) : leadsWith l [] = true := by
  cases l <;> rfl

theorem leadsWith_append (l ext sub : List Char) (h : leadsWith l sub = true) :
    leadsWith (l ++ ext) sub = true := by
  induction sub generalizing l with
  | nil => exact leadsWith_nil _
  | cons b bs ih =>
      cases l with
      | nil => simp [leadsWith] at h
      | cons a as =>
          simp only [leadsWith, Bool.and_eq_true] at h
          simp only [List.cons_append, leadsWith, Bool.and_eq_true]
          exact ⟨h.1, ih as h.2⟩

theorem listContains_nil_sub : ∀ l : List Char, listContains [] l = true := by
  intro l
  cases l with
  | nil => rfl
  | cons a as => simp [listContains, leadsWith]

theorem listContains_append_left (sub a b : List Char)
    (h : listContains sub a = true) : listContains sub (a ++ b) = true := by
  induction a with
  | nil =>
      simp only [listContains, List.isEmpty_iff] at h
      subst h
      exact listContains_nil_sub b
  | cons x xs ih =>
      simp only [listContains, Bool.or_eq_true] at h
      rcases h with h | h
      · simp only [List.cons_append, listContains, Bool.or_eq_true]
        exact Or.inl (leadsWith_append (x :: xs) b sub h)
      · simp only [List.cons_append, listContains, Bool.or_eq_true]
        exact Or.inr (ih h)

theorem isNotFoundError_of_404 (msg : String)
    (h : listContains (("404").data) (jsLowerL msg.data) = true) :
    isNotFoundError msg = true := by
  unfold isNotFoundError strContains jsLowerStr
  simp only [h, Bool.true_or]

theorem processInvoiceFromPdf_isOk (series number : String) (env : Env) :
    ∃ r, processInvoiceFromPdf series number env = Except.ok r := by
  unfold processInvoiceFromPdf
  cases processInvoiceBody series number env with
  | ok r => exact ⟨r, rfl⟩
  | error m => exact ⟨_, rfl⟩

theorem driverLoop_no_catch (series : String) (startNumber : Nat)
    (attempt : Nat → Env) :
    ∀ (fuel i : Nat) (st : DriverState),
      (driverLoop series startNumber attempt i fuel st).notFound = st.notFound ∧
      (driverLoop series startNumber attempt i fuel st).errors = st.errors := by
  intro fuel
  induction fuel with
  | zero => intro i st; exact ⟨rfl, rfl⟩
  | succ n ih =>
      intro i st
      obtain ⟨r, hr⟩ :=
        processInvoiceFromPdf_isOk series (Nat.repr (startNumber + i)) (attempt i)
      unfold driverLoop
      simp only [hr]
      constructor
      · rw [(ih (i + 1) _).1]
        cases r.generated <;> rfl
      · rw [(ih (i + 1) _).2]
        cases r.generated <;> rfl

/-! ## Claim theorems -/

/-- C10: `processInvoiceFromPdf` never raises an exception to its caller —
every outcome is a structured result — and consequently the discovery
driver's exception-based not-found classification is never exercised: no run
ever counts a not-found attempt or records a caught error. -/
theorem c10_never_throws :
    (∀ (series number : String) (env : Env),
       ∃ r, processInvoiceFromPdf series number env = Except.ok r) ∧
    (∀ denv : DriverEnv,
       (processUnprocessedInvoices denv).notFound = 0 ∧
       (processUnprocessedInvoices denv).errors = []) := by
  constructor
  · exact processInvoiceFromPdf_isOk
  · intro denv
    unfold processUnprocessedInvoices
    split
    · exact ⟨rfl, rfl⟩
    · split
      · exact ⟨rfl, rfl⟩
      · split
        · exact ⟨rfl, rfl⟩
        · constructor
          · exact (driverLoop_no_catch _ _ _ denv.maxInvoices 1 _).1
          · exact (driverLoop_no_catch _ _ _ denv.maxInvoices 1 _).2

/-- C1: claimed — the persisted checkpoint advances only to invoice numbers
confirmed to exist, never on a not-found attempt.  The code violates this:
`processInvoiceFromPdf` converts the fetch-layer 404 into a returned result,
the driver's try-branch runs, and a run consisting of one not-found attempt
persists that unconfirmed identifier as the checkpoint. -/
theorem c1_checkpoint_advances_on_not_found :
    (processUnprocessedInvoices denvC1).checkpointWrite = some ("PK202124576") ∧
    (processUnprocessedInvoices denvC1).notFound = 0 := by
  constructor <;> decide

/-- C2: claimed — outcomes `[found, notFound, notFound, found]` stop the run
after the 3rd attempt and a 4th fetch is never issued.  The code violates
this: not-found outcomes never reach the catch-based counter, so all 4
attempts (each issuing a fetch) run and none is counted as not-found. -/
theorem c2_no_early_termination :
    (processUnprocessedInvoices denvC2).total = 4 ∧
    (processUnprocessedInvoices denvC2).notFound = 0 := by
  constructor <;> decide

/-- C5 counterexample: normalizing `"PK20215 24601"` yields series
`"PK20215"` (separator pattern), not the claimed `"PK2021"`. -/
theorem c5_counterexample :
    _parseInvoiceIdentifier ("PK20215 24601") = some (("PK20215"), ("24601")) ∧
    (("PK20215") : String) ≠ ("PK2021") := by
  constructor <;> decide

/-- C5 amended: normalizing `"PK20215 24601"` yields series `"PK20215"` and
number `"24601"` via the separator pattern; the fully anchored year-bearing
pattern cannot match a string containing a space. -/
theorem c5_amended_separator_split :
    _parseInvoiceIdentifier ("PK20215 24601") = some (("PK20215"), ("24601")) := by
  decide

/-- C6 counterexample: `{series := "PK", number := "123456789"}` is a valid
identifier of the pure-digit fallback shape (the normalizer itself produces
it), yet normalizing its canonical string form `"PK123456789"` returns
`{series := "PK1234", number := "56789"}`, so the round-trip fails. -/
theorem c6_counterexample :
    _parseInvoiceIdentifier ("123456789") = some (("PK"), ("123456789")) ∧
    _parseInvoiceIdentifier (("PK") ++ ("123456789")) = some (("PK1234"), ("56789")) ∧
    some ((("PK1234") : String), (("56789") : String)) ≠
      some ((("PK") : String), ("123456789")) := by
  refine ⟨by decide, by decide, by decide⟩

/-- C8: `matchProductsWithNomenclator` returns one result per input in the
same order (a map over the input); an item is matched exactly when the tiered
lookup finds a row that is active and configured, in which case it carries no
reason; otherwise its reason distinguishes a row found but not configured
from no row at all. -/
theorem c8_matcher_shape (c : Catalog) (items : List ProductLineItem) :
    matchProductsWithNomenclator items c = items.map (matchInvoiceProduct c) ∧
    (matchProductsWithNomenclator items c).length = items.length ∧
    ∀ item : ProductLineItem,
      (matchInvoiceProduct c item).matched =
        (match lookupProduct c item with
         | some p => decide (p.is_active = 1 ∧ p.is_new = 0)
         | none => false) ∧
      (matchInvoiceProduct c item).reason =
        (match lookupProduct c item with
         | some p =>
             if p.is_active = 1 ∧ p.is_new = 0 then none
             else some (("Produsul nu este configurat"))
         | none => some (("Produsul nu există în nomenclator"))) := by
  refine ⟨rfl, ?_, ?_⟩
  · unfold matchProductsWithNomenclator
    exact List.length_map items (matchInvoiceProduct c)
  · intro item
    unfold matchInvoiceProduct
    cases lookupProduct c item with
    | none => exact ⟨rfl, rfl⟩
    | some p =>
        by_cases h : p.is_active = 1 ∧ p.is_new = 0
        · simp [h]
        · simp [h]

/-- C4: VAT-payer classification precedence — whenever the classifier's own
payer-status scan of the isolated client sub-section finds an explicit
`Platitor TVA: Nu` marker, `_isVatPayer` returns `false`, even when that same
sub-section also contains a `RO`-prefixed company tax id (the marker wins
over tax-id inference, which is only consulted later). -/
theorem c4_marker_precedence (cui : Option String) (text : String) (n : String)
    (hmarker : platitorDecision (clientSectionF text) = some false)
    (hro : reCapture clientRoRE (clientSectionF text) = some n) :
    _isVatPayer cui text = false := by
  unfold _isVatPayer
  simp only [hmarker]

/-- C4 witness: a concrete invoice text whose client section carries both the
explicit `Platitor TVA: Nu` marker and the tax id `RO123456`; the marker scan
finds `nu`, the tax-id scan finds the id, and classification is `false`. -/
theorem c4_marker_precedence_witness :
    platitorDecision (clientSectionF
      ("Client: ACME SRL RO123456 Platitor TVA: Nu Total 100")) = some false ∧
    reCapture clientRoRE (clientSectionF
      ("Client: ACME SRL RO123456 Platitor TVA: Nu Total 100")) = some ("123456") ∧
    _isVatPayer none ("Client: ACME SRL RO123456 Platitor TVA: Nu Total 100") = false := by
  refine ⟨by decide, by decide,
    c4_marker_precedence none
      ("Client: ACME SRL RO123456 Platitor TVA: Nu Total 100") ("123456")
      (by decide) (by decide)⟩

theorem isNotFoundError_404_head (a b : String)
    (h : listContains (("404").data) (jsLowerL a.data) = true) :
    isNotFoundError (a ++ b) = true := by
  apply isNotFoundError_of_404
  rw [String.data_append]
  unfold jsLowerL
  rw [List.map_append]
  exact listContains_append_left _ _ _ h

/-- C3: the suffix cross-check — whenever the fetched document's extracted
invoice number is absent (JS-falsy) or its digit-only last-5 suffix differs
from that of the requested identifier, `processInvoiceFromPdf` classifies the
attempt as not-found: a failure result (no certificate), whose error message
the driver's own classifier recognizes as not-found. -/
theorem c3_suffix_crosscheck (series number : String) (env : Env) (d : InvoiceData)
    (hfetch : env.fetch = FetchStep.doc (ParseOutcome.extracted d))
    (hbad : jsFalsyStr d.invoiceNumber = true ∨
            ∃ pn, d.invoiceNumber = some pn ∧
              sliceLast5 (digitsOnly (series ++ number)) ≠ sliceLast5 (digitsOnly pn)) :
    ∃ r, processInvoiceFromPdf series number env = Except.ok r ∧
      r.success = false ∧ r.generated = false ∧
      ∃ msg, r.error = some msg ∧ isNotFoundError msg = true := by
  have hbody : ∃ msg, processInvoiceBody series number env = Except.error msg ∧
      isNotFoundError msg = true := by
    unfold processInvoiceBody
    rw [hfetch]
    simp only [parseInvoicePdfM]
    by_cases hf : jsFalsyStr d.invoiceNumber = true
    · simp only [hf, if_true]
      refine ⟨_, rfl, ?_⟩
      rw [String.append_assoc]
      exact isNotFoundError_404_head _ _ (by decide)
    · rcases hbad with hb | ⟨pn, hpn, hne⟩
      · exact absurd hb hf
      · simp only [hf, if_false, Bool.false_eq_true]
        rw [hpn]
        simp only [Option.getD_some]
        rw [if_pos hne]
        refine ⟨_, rfl, ?_⟩
        simp only [String.append_assoc]
        exact isNotFoundError_404_head _ _ (by decide)
  obtain ⟨msg, hmsg, hnf⟩ := hbody
  refine ⟨{ success := false, error := some msg }, ?_, rfl, rfl, msg, rfl, hnf⟩
  unfold processInvoiceFromPdf
  rw [hmsg]

/-- C3 witness: requesting `PK202124602` while the fetched document extracts
`PK202124601` produces a failure result whose message classifies as
not-found. -/
theorem c3_suffix_crosscheck_witness :
    ∃ r, processInvoiceFromPdf ("PK2021") ("24602")
        { fetch := FetchStep.doc (ParseOutcome.extracted
            { invoiceNumber := some ("PK202124601"), invoiceDate := none,
              clientName := none, clientCUI := none, isVatPayer := false,
              products := [], emagOrderNumber := none }),
          catalog := emptyCatalog, templateOk := true,
          saveOk := Except.ok (), dbOk := Except.ok (),
          todayStr := ("01.01.2025") } = Except.ok r ∧
      r.success = false ∧ r.generated = false ∧
      ∃ msg, r.error = some msg ∧ isNotFoundError msg = true := by
  exact c3_suffix_crosscheck ("PK2021") ("24602") _ _ rfl
    (Or.inr ⟨("PK202124601"), rfl, by decide⟩)

theorem jsPrep_eq_self (cs : List Char)
    (h : ∀ c ∈ cs, isUpperAlpha c = true ∨ isAsciiDigit c = true) :
    jsUpperL (jsTrimL cs) = cs := by
  unfold jsUpperL
  rw [jsTrimL_eq_self cs fun c hc => isWsJS_alnum c (h c hc)]
  exact map_eq_self_of cs fun c hc => jsUpperChar_eq_self c (h c hc)

/-- C6 amended: the round-trip `normalize (series ++ number) = (series, number)`
holds for the year-bearing shape (letters, a 4-digit year, a 4-6 digit
number) and for the plain-series shapes (2-5 letters — including the
pure-digit fallback series `PK` — followed by digits) whenever the digit part
does not have 8 to 10 digits; identifiers of the separator shape, and
plain-series identifiers whose number has 8-10 digits, are re-split by the
year-bearing pattern or rejected, so the unrestricted claim fails. -/
theorem c6_amended_roundtrip :
    (∀ L Y N : List Char, L ≠ [] → (∀ c ∈ L, isUpperAlpha c = true) →
       Y.length = 4 → (∀ c ∈ Y, isAsciiDigit c = true) →
       4 ≤ N.length → N.length ≤ 6 → (∀ c ∈ N, isAsciiDigit c = true) →
       _parseInvoiceIdentifier (String.mk (L ++ Y ++ N)) =
         some (String.mk (L ++ Y), String.mk N)) ∧
    (∀ L N : List Char, 2 ≤ L.length → L.length ≤ 5 →
       (∀ c ∈ L, isUpperAlpha c = true) →
       N ≠ [] → (∀ c ∈ N, isAsciiDigit c = true) →
       ¬(8 ≤ N.length ∧ N.length ≤ 10) →
       _parseInvoiceIdentifier (String.mk (L ++ N)) =
         some (String.mk L, String.mk N)) := by
  constructor
  · intro L Y N hL hLa hY4 hYa hN4 hN6 hNa
    obtain ⟨y, ys, rfl⟩ := List.exists_cons_of_ne_nil
      (List.ne_nil_of_length_pos (by omega : 0 < Y.length))
    have hre : y :: (ys ++ N) = (y :: ys) ++ N := (List.cons_append y ys N).symm
    unfold _parseInvoiceIdentifier
    rw [show (String.mk (L ++ (y :: ys) ++ N)).data = L ++ (y :: (ys ++ N)) from by
      simp]
    rw [jsPrep_eq_self _ (by
      intro c hc
      rcases List.mem_append.mp hc with hc | hc
      · exact Or.inl (hLa c hc)
      · rw [hre] at hc
        rcases List.mem_append.mp hc with hc | hc
        · exact Or.inr (hYa c hc)
        · exact Or.inr (hNa c hc))]
    unfold parseIdentChars
    rw [takeWhile_app_of L y (ys ++ N) hLa
          (isUpperAlpha_of_digit y (hYa y (List.mem_cons_self y ys))),
        dropWhile_app_of L y (ys ++ N) hLa
          (isUpperAlpha_of_digit y (hYa y (List.mem_cons_self y ys)))]
    have hlen : (y :: (ys ++ N)).length = 4 + N.length := by
      simp only [List.length_cons, List.length_append]
      simp only [List.length_cons] at hY4
      omega
    rw [if_pos ⟨hL, by
        simp only [List.all_eq_true]
        intro c hc
        rw [hre] at hc
        rcases List.mem_append.mp hc with hc | hc
        · exact hYa c hc
        · exact hNa c hc,
      by rw [hlen]; omega, by rw [hlen]; omega⟩]
    have htake : (y :: (ys ++ N)).take 4 = y :: ys := by
      rw [hre, show (4 : Nat) = (y :: ys).length from hY4.symm]
      exact List.take_left (y :: ys) N
    have hdrop : (y :: (ys ++ N)).drop 4 = N := by
      rw [hre, show (4 : Nat) = (y :: ys).length from hY4.symm]
      exact List.drop_left (y :: ys) N
    rw [htake, hdrop]
  · intro L N hL2 hL5 hLa hN hNa hNlen
    obtain ⟨n, ns, rfl⟩ := List.exists_cons_of_ne_nil hN
    unfold _parseInvoiceIdentifier
    rw [show (String.mk (L ++ n :: ns)).data = L ++ n :: ns from rfl]
    rw [jsPrep_eq_self _ (by
      intro c hc
      rcases List.mem_append.mp hc with hc | hc
      · exact Or.inl (hLa c hc)
      · exact Or.inr (hNa c hc))]
    unfold parseIdentChars
    rw [takeWhile_app_of L n ns hLa
          (isUpperAlpha_of_digit n (hNa n (List.mem_cons_self n ns))),
        dropWhile_app_of L n ns hLa
          (isUpperAlpha_of_digit n (hNa n (List.mem_cons_self n ns)))]
    rw [if_neg (by
      rintro ⟨-, -, h8, h10⟩
      exact hNlen ⟨h8, h10⟩)]
    rw [if_pos ⟨hL2, hL5, List.cons_ne_nil n ns, by
      simp only [List.all_eq_true]
      exact hNa⟩]

/-- C6 amended, witness: the round-trip at the year-bearing identifier
`{series := PK2021, number := 24601}` and at the plain identifier
`{series := PK, number := 24601}`. -/
theorem c6_amended_roundtrip_witness :
    _parseInvoiceIdentifier (String.mk ((("PK").data ++ ("2021").data) ++ ("24601").data)) =
      some (String.mk (("PK").data ++ ("2021").data), String.mk (("24601").data)) ∧
    _parseInvoiceIdentifier (String.mk (("PK").data ++ ("24601").data)) =
      some (String.mk (("PK").data), String.mk (("24601").data)) := by
  constructor
  · exact c6_amended_roundtrip.1 (("PK").data) (("2021").data) (("24601").data)
      (by decide) (by decide) (by decide) (by decide) (by decide) (by decide) (by decide)
  · exact c6_amended_roundtrip.2 (("PK").data) (("24601").data)
      (by decide) (by decide) (by decide) (by decide) (by decide) (by decide)

/-- C7: product capacity cap.  Manual generation composes
`certificateData.products = products.slice(0, 3)` — at most 3 products, the
first 3 in original order when 5 are supplied — and succeeds rather than
rejecting the excess; and every certificate composed by the PDF pipeline also
carries at most 3 products. -/
theorem c7_product_cap :
    (∀ (md : ManualData) (env : ManualEnv), md.products ≠ [] →
       env.templateOk = true → env.saveOk = Except.ok () → env.dbOk = Except.ok () →
       ∃ res cd, generateManualCertificate md env = Except.ok res ∧
         res.success = true ∧ res.certData = some cd ∧
         cd.products = md.products.take 3 ∧ cd.products.length ≤ 3 ∧
         ∀ a b c d e : CertProduct, md.products = [a, b, c, d, e] →
           cd.products = [a, b, c]) ∧
    (∀ (series number : String) (env : Env),
       (certProductsOf (processInvoiceFromPdf series number env)).length ≤ 3) := by
  constructor
  · intro md env hne htpl hsave hdb
    unfold generateManualCertificate generateCertificatePure
    have h1 : md.products.isEmpty = false := by
      cases h : md.products with
      | nil => exact absurd h hne
      | cons a as => rfl
    simp only [h1, Bool.false_eq_true, if_false, htpl, if_true, hsave, hdb]
    refine ⟨_, _, rfl, rfl, rfl, rfl, ?_, ?_⟩
    · rw [List.length_take]
      exact min_le_left _ _
    · intro a b c d e h5
      rw [h5]
      rfl
  · intro series number env
    unfold certProductsOf processInvoiceFromPdf processInvoiceBody
    cases env.fetch with
    | throws msg => simp
    | empty => simp
    | doc outcome =>
      cases outcome with
      | fails msg => simp [parseInvoicePdfM]
      | extracted d =>
        simp only [parseInvoicePdfM]
        by_cases h1 : jsFalsyStr d.invoiceNumber = true
        · simp [h1]
        · simp only [h1, Bool.false_eq_true, if_false]
          by_cases h2 : sliceLast5 (digitsOnly (series ++ number)) ≠
              sliceLast5 (digitsOnly ((d.invoiceNumber).getD ("")))
          · rw [if_pos h2]
            simp
          · rw [if_neg h2]
            by_cases h3 : ((matchProductsWithNomenclator d.products env.catalog).filter
                (fun p => p.matched)).isEmpty = true
            · rw [if_pos h3]
              simp
            · rw [if_neg h3]
              unfold generateCertificatePure
              by_cases h4 : env.templateOk = true
              · rw [if_pos h4]
                cases env.saveOk with
                | error e => simp
                | ok u =>
                    cases env.dbOk with
                    | error e => simp
                    | ok v =>
                        simp only []
                        rw [List.length_take]
                        exact min_le_left _ _
              · rw [if_neg h4]
                simp

/-- C7 witness: five products produce a successful certificate carrying
exactly the first three in original order. -/
theorem c7_product_cap_witness :
    ∃ res cd, generateManualCertificate md5 manualEnvOk = Except.ok res ∧
      res.success = true ∧ res.certData = some cd ∧
      cd.products = md5.products.take 3 ∧ cd.products.length ≤ 3 ∧
      cd.products = [mkCp ("P1") (some 24), mkCp ("P2") (some 36), mkCp ("P3") none] := by
  obtain ⟨res, cd, hok, hs, hcd, hp, hlen, h5⟩ :=
    c7_product_cap.1 md5 manualEnvOk (by decide) rfl rfl rfl
  exact ⟨res, cd, hok, hs, hcd, hp, hlen, h5 _ _ _ _ _ rfl⟩

theorem noDiacritics_slotName (ps : List CertProduct) (i : Nat) :
    noDiacritics (slotNameField ps i) = true := by
  unfold slotNameField
  split
  · split
    · exact noDiacritics_normalizeText _
    · exact noDiacritics_normalizeText _
  · exact noDiacritics_normalizeText _

theorem noDiacritics_slotWarranty (ps : List CertProduct) (i : Nat) :
    noDiacritics (slotWarrantyField ps i) = true := by
  unfold slotWarrantyField
  split
  · split
    · exact noDiacritics_normalizeText _
    · exact noDiacritics_normalizeText _
  · exact noDiacritics_normalizeText _

theorem certNameField_fill (data : CertificateData) (i : Nat) (h : i < 3) :
    certNameField (fillCertificateFields data) i = slotNameField data.products i := by
  interval_cases i <;> rfl

theorem certWarrantyField_fill (data : CertificateData) (i : Nat) (h : i < 3) :
    certWarrantyField (fillCertificateFields data) i = slotWarrantyField data.products i := by
  interval_cases i <;> rfl

/-- C9: certificate slot filling.  For each slot `i` (0-based, template slots
1-3): a product present at position `i` (with a JS-truthy name) yields a name
field `"<i+1>. <name>"` and a warranty field `"garantie (luni): <n>"` where
`<n>` falls back to 24 when the matched warranty value is absent (or 0, both
JS-falsy); an absent product yields empty strings in both fields; and every
slot value is diacritic-free. -/
theorem c9_slot_filling (data : CertificateData) (i : Nat) (hi : i < 3) :
    (∀ p, data.products.get? i = some p → p.name ≠ ("") →
       certNameField (fillCertificateFields data) i =
         normalizeText (Nat.repr (i + 1) ++ (". ") ++ formatProductName p.name) ∧
       certWarrantyField (fillCertificateFields data) i =
         normalizeText (("garantie (luni): ") ++ (jsOrInt p.warrantyMonths 24).repr)) ∧
    (data.products.get? i = none →
       certNameField (fillCertificateFields data) i = ("") ∧
       certWarrantyField (fillCertificateFields data) i = ("")) ∧
    noDiacritics (certNameField (fillCertificateFields data) i) = true ∧
    noDiacritics (certWarrantyField (fillCertificateFields data) i) = true := by
  rw [certNameField_fill data i hi, certWarrantyField_fill data i hi]
  refine ⟨?_, ?_, noDiacritics_slotName _ _, noDiacritics_slotWarranty _ _⟩
  · intro p hp hn
    unfold slotNameField slotWarrantyField
    simp only [hp]
    constructor
    · rw [if_neg hn]
    · rw [if_neg hn]
  · intro hp
    unfold slotNameField slotWarrantyField
    simp only [hp]
    exact ⟨rfl, rfl⟩

/-- C9 witness: in `c9data`, slot 1 is populated from the first product
(diacritics stripped by `normalizeText`) and slot 3, having no product, is
cleared to empty strings. -/
theorem c9_slot_filling_witness :
    certNameField (fillCertificateFields c9data) 0 =
      normalizeText (Nat.repr 1 ++ (". ") ++
        formatProductName (mkCp ("Masinuta electrica Premier ățâî") (some 24)).name) ∧
    certNameField (fillCertificateFields c9data) 2 = ("") ∧
    certWarrantyField (fillCertificateFields c9data) 2 = ("") := by
  refine ⟨?_, ?_, ?_⟩
  · exact ((c9_slot_filling c9data 0 (by omega)).1 _ (by decide) (by decide)).1
  · exact ((c9_slot_filling c9data 2 (by omega)).2.1 (by decide)).1
  · exact ((c9_slot_filling c9data 2 (by omega)).2.1 (by decide)).2
